import Mathlib

/-!
Shallow embedding of the vehicle-command subsystem of StatsForAdventure:
the command handler (src/app/command_handler.py) and the command-related
API routes (src/app/api/routes.py).

Modelling conventions:
* Python dicts used as JSON-like records become association lists
  `List (String × PyVal)`; the command cache (a dict keyed by command id,
  preserving insertion order) becomes `List (String × Entry)` with
  `dictGet` / `dictInsert` reproducing dict lookup and assignment.
* ISO-8601 timestamps become naturals (seconds); comparison of equal-format
  ISO strings agrees with the numeric order, and `clean_command_cache`
  compares ages in seconds exactly as the source does.
* A coroutine that may raise becomes a function into `Except String α`,
  the `String` carrying `str(e)`; Python `None` returns become
  `Option.none`, and the truthiness tests of the source (`if not
  command_id`, `if status_data`) are reproduced on `Option`/`String`.
* The external `rivian` package is opaque: the `VehicleCommand` enum
  membership test is a parameter `valid : String → Bool` (the constructor
  raises `ValueError` exactly when membership fails), and the network
  client is a `RivianClient` record of the two capabilities the handler
  uses.  Each handler function also counts how many upstream network
  calls it performed (`upstreamCalls`), which the source performs as
  awaited coroutine calls.
* Python `list.sort` with a key and `reverse=True` is a stable descending
  sort; it is modelled by `List.insertionSort` with the reflexive, total,
  transitive comparison `b.timestamp ≤ a.timestamp`, which computes the
  same function (unique stable sort for a total preorder).
-/

namespace StatsForAdventure

/-- `CommandStatus` enum of src/app/command_handler.py. -/
inductive CommandStatus where
  | PENDING
  | EXECUTING
  | FAILED
  | COMPLETED
  | UNKNOWN
deriving DecidableEq, Repr

/-- The `.value` of each enum member, as assigned in the source. -/
def CommandStatus.value : CommandStatus → Nat
  | .PENDING => 0
  | .EXECUTING => 1
  | .FAILED => 2
  | .COMPLETED => 3
  | .UNKNOWN => 4

/-- The payload returned by `RivianClient.get_command_status` upstream:
a dict whose fields the handler reads with `.get`, each possibly absent. -/
structure StatusData where
  state : Option Nat
  command : Option String
  vehicleId : Option String
  createdAt : Option Nat
deriving DecidableEq, Repr

/-- Values appearing in the JSON-like response dicts of the handler:
strings, numbers, Python `None`, or an opaque upstream payload dict. -/
inductive PyVal where
  | s : String → PyVal
  | n : Nat → PyVal
  | none : PyVal
  | data : StatusData → PyVal
deriving DecidableEq, Repr

/-- One cache record, the dict stored in `self.command_cache[command_id]`. -/
structure Entry where
  command : String
  vehicle_id : Option String
  status : Nat
  timestamp : Nat
  result : Option StatusData
deriving DecidableEq, Repr

/-- The in-memory command cache: a Python dict keyed by command id,
modelled as an association list in insertion order. -/
abbrev Cache := List (String × Entry)

/-- Python dict lookup `d[k]` / `k in d` (keys are unique in a dict;
on the lists built by `dictInsert` the first match is the only one). -/
def dictGet (k : String) : List (String × α) → Option α
  | [] => Option.none
  | (k₁, v) :: rest => if k₁ = k then some v else dictGet k rest

/-- Python dict assignment `d[k] = v`: overwrites in place if the key is
present (keeping its position, as dicts do), otherwise appends. -/
def dictInsert (k : String) (v : α) : List (String × α) → List (String × α)
  | [] => [(k, v)]
  | (k₁, v₁) :: rest =>
      if k₁ = k then (k, v) :: rest else (k₁, v₁) :: dictInsert k v rest

/-- The two upstream capabilities of src/app/rivian_client.py that the
command handler consumes.  `send_vehicle_command` takes the command name
and the five remaining arguments of the source call (vehicle id, the four
signing parameters, and the optional params payload) and yields either an
exception message or the command id returned upstream (possibly `None`).
`get_command_status` yields either an exception message or the upstream
record (`Option.none` models a falsy response). -/
structure RivianClient where
  send_vehicle_command :
    String → String → String → String → String → String → Option PyVal →
      Except String (Option String)
  get_command_status : String → Except String (Option StatusData)

/-- Result of one handler call: the cache afterwards, the returned dict,
and how many upstream network calls were made during the call. -/
structure Outcome where
  cache : Cache
  response : List (String × PyVal)
  upstreamCalls : Nat
deriving Repr

/-- The error dict `{'status': 'error', 'message': m}` of the handler. -/
def errorResponse (m : String) : List (String × PyVal) :=
  [("status", PyVal.s "error"), ("message", PyVal.s m)]

/-- `CommandHandler.execute_command` (src/app/command_handler.py lines
32-90): validate the command name against the `VehicleCommand` vocabulary,
send it upstream, and on success record a PENDING cache entry. -/
def execute_command (valid : String → Bool) (client : RivianClient)
    (cache : Cache)
    (command vehicle_id phone_id identity_id vehicle_key private_key : String)
    (params : Option PyVal) (now : Nat) : Outcome :=
  if valid command = false then
    { cache := cache
      response := errorResponse ("Invalid command: " ++ command)
      upstreamCalls := 0 }
  else
    match client.send_vehicle_command command vehicle_id phone_id identity_id
        vehicle_key private_key params with
    | .error e =>
        { cache := cache
          response := errorResponse ("Error executing command: " ++ e)
          upstreamCalls := 1 }
    | .ok Option.none =>
        { cache := cache
          response := errorResponse "Failed to send command"
          upstreamCalls := 1 }
    | .ok (some command_id) =>
        if command_id = "" then
          { cache := cache
            response := errorResponse "Failed to send command"
            upstreamCalls := 1 }
        else
          { cache := dictInsert command_id
              { command := command
                vehicle_id := some vehicle_id
                status := CommandStatus.PENDING.value
                timestamp := now
                result := Option.none } cache
            response :=
              [("status", PyVal.s "success"),
               ("command_id", PyVal.s command_id),
               ("message", PyVal.s ("Command " ++ command ++ " sent successfully"))]
            upstreamCalls := 1 }

/-- The success dict built on the cache-hit paths of `get_command_status`,
from the (possibly updated) cache entry. -/
def cachedView (command_id : String) (e : Entry) : List (String × PyVal) :=
  [("status", PyVal.s "success"),
   ("command_id", PyVal.s command_id),
   ("command_status", PyVal.n e.status),
   ("command", PyVal.s e.command),
   ("timestamp", PyVal.n e.timestamp),
   ("result", match e.result with
              | some d => PyVal.data d
              | Option.none => PyVal.none)]

/-- `CommandHandler.get_command_status` (src/app/command_handler.py lines
92-154): serve a cached record, re-querying upstream first only when the
cached status is PENDING or EXECUTING; on a cache miss query upstream,
synthesize and insert a record when upstream has one, and fail with
"Command ID not found" otherwise. -/
def get_command_status (client : RivianClient) (cache : Cache)
    (command_id : String) (now : Nat) : Outcome :=
  match dictGet command_id cache with
  | some cached =>
      if cached.status = CommandStatus.PENDING.value ∨
         cached.status = CommandStatus.EXECUTING.value then
        match client.get_command_status command_id with
        | .error e =>
            { cache := cache
              response := errorResponse ("Error getting command status: " ++ e)
              upstreamCalls := 1 }
        | .ok (some status_data) =>
            let updated : Entry :=
              { cached with
                  status := status_data.state.getD CommandStatus.UNKNOWN.value
                  result := some status_data }
            { cache := dictInsert command_id updated cache
              response := cachedView command_id updated
              upstreamCalls := 1 }
        | .ok Option.none =>
            { cache := cache
              response := cachedView command_id cached
              upstreamCalls := 1 }
      else
        { cache := cache
          response := cachedView command_id cached
          upstreamCalls := 0 }
  | Option.none =>
      match client.get_command_status command_id with
      | .error e =>
          { cache := cache
            response := errorResponse ("Error getting command status: " ++ e)
            upstreamCalls := 1 }
      | .ok Option.none =>
          { cache := cache
            response := errorResponse ("Command ID not found: " ++ command_id)
            upstreamCalls := 1 }
      | .ok (some status_data) =>
          let status := status_data.state.getD CommandStatus.UNKNOWN.value
          { cache := dictInsert command_id
              { command := status_data.command.getD "unknown"
                vehicle_id := status_data.vehicleId
                status := status
                timestamp := status_data.createdAt.getD now
                result := some status_data } cache
            response :=
              [("status", PyVal.s "success"),
               ("command_id", PyVal.s command_id),
               ("command_status", PyVal.n status),
               ("command", PyVal.s (status_data.command.getD "unknown")),
               ("timestamp", match status_data.createdAt with
                             | some t => PyVal.n t
                             | Option.none => PyVal.none),
               ("result", PyVal.data status_data)]
            upstreamCalls := 1 }

/-- Result of a cache sweep: the cache afterwards, the Python return value
of the function, and the count written to the debug log. -/
structure CleanOutcome where
  cache : Cache
  returned : Option Nat
  logged : Nat
deriving Repr

/-- The removal test of `clean_command_cache`: age in seconds above
`max_age_hours * 3600`, or status COMPLETED or FAILED.  `now - timestamp`
is natural subtraction; a record stamped in the future has age 0 in the
model and a negative age in the source, and both fail the `>` test. -/
def staleOrTerminal (now max_age_hours : Nat) (e : Entry) : Bool :=
  decide (now - e.timestamp > max_age_hours * 3600) ||
    (e.status = CommandStatus.COMPLETED.value ||
     e.status = CommandStatus.FAILED.value)

/-- `CommandHandler.clean_command_cache` (src/app/command_handler.py lines
156-173): collect the keys of every stale-or-terminal record, pop each of
them, log how many were collected, and return `None` (the source has no
return statement). -/
def clean_command_cache (cache : Cache) (now max_age_hours : Nat) :
    CleanOutcome :=
  let to_remove :=
    (cache.filter (fun p => staleOrTerminal now max_age_hours p.2)).map Prod.fst
  { cache := cache.filter (fun p => !(to_remove.contains p.1))
    returned := Option.none
    logged := to_remove.length }

/-- One element of the `commands` list built by the history route. -/
structure HistoryItem where
  command_id : String
  command : String
  status : Nat
  timestamp : Nat
deriving DecidableEq, Repr

/-- The summary dict the history route builds from one cache item. -/
def historyItemOf (p : String × Entry) : HistoryItem :=
  { command_id := p.1
    command := p.2.command
    status := p.2.status
    timestamp := p.2.timestamp }

/-- `command_history` (src/app/api/routes.py lines 187-211): filter the
cache to the records of one vehicle, project each to a summary dict, then
stable-sort by timestamp, newest first (Python `list.sort` with
`reverse=True`).  The route wraps this list in
`{'status': 'success', 'commands': ...}`. -/
def command_history (cache : Cache) (vehicle_id : String) : List HistoryItem :=
  let commands :=
    (cache.filter (fun p => p.2.vehicle_id = some vehicle_id)).map historyItemOf
  List.insertionSort (fun a b => b.timestamp ≤ a.timestamp) commands

/-- The JSON body POSTed to the command route; each field read with
`data.get(...)`, hence optional. -/
structure CommandRequest where
  command : Option String
  phone_id : Option String
  identity_id : Option String
  vehicle_key : Option String
  private_key : Option String
  params : Option PyVal
deriving Repr

/-- Python string truthiness on an optional field: `not x` holds for an
absent field (`None`) and for the empty string. -/
def strFalsy : Option String → Bool
  | Option.none => true
  | some s => s = ""

/-- A Flask response of the command route: an error body
`{'error': message}` with its HTTP status code, or a success body. -/
inductive RouteResult where
  | err : String → Nat → RouteResult
  | ok : List (String × PyVal) → RouteResult
deriving Repr

/-- Result of one route call: cache afterwards, HTTP-level result, and the
number of upstream `send_vehicle_command` network calls made. -/
structure RouteOutcome where
  cache : Cache
  result : RouteResult
  sendCalls : Nat
deriving Repr

/-- `vehicle_command` (src/app/api/routes.py lines 91-156): validate the
request body (presence of data, of the command, of the four signing
parameters), resolve the vehicle, then delegate to `execute_command`,
turning a handler error into a 500.  `vehicles` is the vehicle lookup
`client.vehicles.get(vehicle_id)` after `get_user_info`. -/
def vehicle_command (valid : String → Bool) (client : RivianClient)
    (vehicles : String → Bool) (cache : Cache) (vehicle_id : String)
    (data : Option CommandRequest) (now : Nat) : RouteOutcome :=
  match data with
  | Option.none => { cache := cache, result := .err "Missing request data" 400, sendCalls := 0 }
  | some body =>
      if strFalsy body.command then
        { cache := cache, result := .err "Command is required" 400, sendCalls := 0 }
      else if strFalsy body.phone_id || strFalsy body.identity_id ||
              strFalsy body.vehicle_key || strFalsy body.private_key then
        { cache := cache
          result := .err "Missing required parameters for command" 400
          sendCalls := 0 }
      else if vehicles vehicle_id = false then
        { cache := cache, result := .err "Vehicle not found" 404, sendCalls := 0 }
      else
        let outcome := execute_command valid client cache (body.command.getD "")
          vehicle_id (body.phone_id.getD "") (body.identity_id.getD "")
          (body.vehicle_key.getD "") (body.private_key.getD "") body.params now
        { cache := outcome.cache
          result :=
            if dictGet "status" outcome.response = some (PyVal.s "error") then
              .err (match dictGet "message" outcome.response with
                    | some (PyVal.s m) => m
                    | _ => "") 500
            else .ok outcome.response
          sendCalls := outcome.upstreamCalls }

/-! ### Shared lemmas and concrete fixtures -/

/-- Looking up a key immediately after assigning it yields the assigned
value, as for a Python dict. -/
theorem dictGet_dictInsert_self (k : String) (v : α) :
    ∀ l : List (String × α), dictGet k (dictInsert k v l) = some v := by
  intro l
  induction l with
  | nil => simp [dictGet, dictInsert]
  | cons p rest ih =>
      by_cases h : p.1 = k
      · simp [dictInsert, dictGet, h]
      · simp [dictInsert, dictGet, h, ih]

/-- A sample recognized-vocabulary test for the external `VehicleCommand`
enum. -/
def sampleValid (c : String) : Bool :=
  c = "WAKE_VEHICLE" || c = "UNLOCK_ALL_CLOSURES"

/-- A sample upstream status payload reporting the COMPLETED state. -/
def sampleData : StatusData :=
  { state := some 3
    command := some "WAKE_VEHICLE"
    vehicleId := some "v1"
    createdAt := some 7 }

/-- An upstream client that accepts sends (returning id "cmd-1") and
reports `sampleData` for every status query. -/
def completeClient : RivianClient :=
  { send_vehicle_command := fun _ _ _ _ _ _ _ => .ok (some "cmd-1")
    get_command_status := fun _ => .ok (some sampleData) }

/-- An upstream client that accepts sends but has no status data yet
(falsy status response). -/
def quietClient : RivianClient :=
  { send_vehicle_command := fun _ _ _ _ _ _ _ => .ok (some "cmd-1")
    get_command_status := fun _ => .ok Option.none }

/-- An upstream client whose calls raise with message "boom". -/
def failingClient : RivianClient :=
  { send_vehicle_command := fun _ _ _ _ _ _ _ => .error "boom"
    get_command_status := fun _ => .error "boom" }

/-- A cached record stuck in the UNKNOWN state. -/
def unknownEntry : Entry :=
  { command := "WAKE_VEHICLE"
    vehicle_id := some "v1"
    status := CommandStatus.UNKNOWN.value
    timestamp := 2
    result := Option.none }

/-- A cached record in the terminal COMPLETED state. -/
def completedEntry : Entry :=
  { command := "WAKE_VEHICLE"
    vehicle_id := some "v1"
    status := CommandStatus.COMPLETED.value
    timestamp := 2
    result := some sampleData }

/-! ### C1 -/

/-- C1 counterexample: with a cached record in state UNKNOWN, a
`get_command_status` call performs zero upstream queries and serves the
record purely from cache, even against an upstream that has fresher data —
refuting the claim that UNKNOWN triggers a re-query. -/
theorem unknown_repoll_cex :
    (get_command_status completeClient [("c1", unknownEntry)] "c1" 9).upstreamCalls = 0 ∧
    (get_command_status completeClient [("c1", unknownEntry)] "c1" 9).cache =
      [("c1", unknownEntry)] ∧
    (get_command_status completeClient [("c1", unknownEntry)] "c1" 9).response =
      cachedView "c1" unknownEntry := by
  refine ⟨rfl, rfl, rfl⟩

/-- C1 amended: a cached record whose status is UNKNOWN is served purely
from cache — `get_command_status` makes no upstream query and leaves the
cache unchanged; only PENDING and EXECUTING are non-terminal for polling. -/
theorem unknown_served_from_cache (client : RivianClient) (cache : Cache)
    (command_id : String) (now : Nat) (cached : Entry)
    (hget : dictGet command_id cache = some cached)
    (hunk : cached.status = CommandStatus.UNKNOWN.value) :
    get_command_status client cache command_id now =
      { cache := cache
        response := cachedView command_id cached
        upstreamCalls := 0 } := by
  have hcond : ¬(cached.status = CommandStatus.PENDING.value ∨
      cached.status = CommandStatus.EXECUTING.value) := by
    simp [hunk, CommandStatus.value]
  simp only [get_command_status, hget]
  rw [if_neg hcond]

/-- C1 amended, witness at a concrete cache and client. -/
theorem unknown_served_from_cache_witness :
    get_command_status completeClient [("c1", unknownEntry)] "c1" 9 =
      { cache := [("c1", unknownEntry)]
        response := cachedView "c1" unknownEntry
        upstreamCalls := 0 } :=
  unknown_served_from_cache completeClient [("c1", unknownEntry)] "c1" 9
    unknownEntry (by decide) (by decide)

/-! ### C2 -/

/-- C2: a cached record whose status is COMPLETED or FAILED is served from
cache with zero upstream queries, and the cache is unchanged — so every
repetition of the call meets the same terminal record and never contacts
upstream either. -/
theorem terminal_served_from_cache (client : RivianClient) (cache : Cache)
    (command_id : String) (now : Nat) (cached : Entry)
    (hget : dictGet command_id cache = some cached)
    (hterm : cached.status = CommandStatus.COMPLETED.value ∨
             cached.status = CommandStatus.FAILED.value) :
    get_command_status client cache command_id now =
      { cache := cache
        response := cachedView command_id cached
        upstreamCalls := 0 } := by
  have hcond : ¬(cached.status = CommandStatus.PENDING.value ∨
      cached.status = CommandStatus.EXECUTING.value) := by
    rcases hterm with h | h <;> simp [h, CommandStatus.value]
  simp only [get_command_status, hget]
  rw [if_neg hcond]

/-- C2 witness: a COMPLETED record at a concrete cache and client. -/
theorem terminal_served_from_cache_witness :
    get_command_status completeClient [("c1", completedEntry)] "c1" 9 =
      { cache := [("c1", completedEntry)]
        response := cachedView "c1" completedEntry
        upstreamCalls := 0 } :=
  terminal_served_from_cache completeClient [("c1", completedEntry)] "c1" 9
    completedEntry (by decide) (Or.inl (by decide))

/-! ### C3 -/

/-- C3: for a command name outside the recognized vocabulary,
`execute_command` returns the "Invalid command" error, makes zero upstream
calls, and leaves the cache exactly as it was. -/
theorem invalid_command_rejected (valid : String → Bool)
    (client : RivianClient) (cache : Cache)
    (command vehicle_id phone_id identity_id vehicle_key private_key : String)
    (params : Option PyVal) (now : Nat)
    (hinvalid : valid command = false) :
    execute_command valid client cache command vehicle_id phone_id identity_id
        vehicle_key private_key params now =
      { cache := cache
        response := errorResponse ("Invalid command: " ++ command)
        upstreamCalls := 0 } := by
  simp [execute_command, hinvalid]

/-- C3 witness: a concrete unrecognized command name. -/
theorem invalid_command_rejected_witness :
    execute_command sampleValid completeClient [] "FLY" "v1" "p1" "i1" "k1"
        "s1" Option.none 0 =
      { cache := []
        response := errorResponse "Invalid command: FLY"
        upstreamCalls := 0 } :=
  invalid_command_rejected sampleValid completeClient [] "FLY" "v1" "p1" "i1"
    "k1" "s1" Option.none 0 (by decide)

/-! ### C4 -/

/-- C4 counterexample: a valid submission against an upstream that accepts
the command (id "cmd-1") but whose status feed already reports state 3
(COMPLETED).  The immediately following `get_command_status` succeeds but
reports `command_status` 3, not PENDING (0) — refuting the claim as
stated, which quantifies over every upstream behaviour. -/
theorem pending_after_execute_cex :
    dictGet "command_id"
        (execute_command sampleValid completeClient [] "WAKE_VEHICLE" "v1"
          "p1" "i1" "k1" "s1" Option.none 0).response = some (PyVal.s "cmd-1") ∧
    dictGet "command_status"
        (get_command_status completeClient
          (execute_command sampleValid completeClient [] "WAKE_VEHICLE" "v1"
            "p1" "i1" "k1" "s1" Option.none 0).cache "cmd-1" 1).response =
      some (PyVal.n 3) ∧
    PyVal.n 3 ≠ PyVal.n CommandStatus.PENDING.value := by
  refine ⟨rfl, rfl, by decide⟩

/-- C4 amended: after a successful submission (recognized command, upstream
accepts with a non-empty id), the returned id is immediately retrievable
via `get_command_status`, and that call reports PENDING provided the
upstream poll it triggers returns no status data yet; in general the call
reports whatever state the poll delivers. -/
theorem pending_after_execute (valid : String → Bool) (client : RivianClient)
    (cache : Cache)
    (command vehicle_id phone_id identity_id vehicle_key private_key : String)
    (params : Option PyVal) (now later : Nat) (cid : String)
    (hvalid : valid command = true)
    (hsend : client.send_vehicle_command command vehicle_id phone_id
        identity_id vehicle_key private_key params = .ok (some cid))
    (hcid : cid ≠ "")
    (hpoll : client.get_command_status cid = .ok Option.none) :
    dictGet "command_id"
        (execute_command valid client cache command vehicle_id phone_id
          identity_id vehicle_key private_key params now).response =
      some (PyVal.s cid) ∧
    dictGet "status"
        (get_command_status client
          (execute_command valid client cache command vehicle_id phone_id
            identity_id vehicle_key private_key params now).cache
          cid later).response = some (PyVal.s "success") ∧
    dictGet "command_status"
        (get_command_status client
          (execute_command valid client cache command vehicle_id phone_id
            identity_id vehicle_key private_key params now).cache
          cid later).response = some (PyVal.n CommandStatus.PENDING.value) := by
  have hexec : execute_command valid client cache command vehicle_id phone_id
      identity_id vehicle_key private_key params now =
      { cache := dictInsert cid
          { command := command
            vehicle_id := some vehicle_id
            status := CommandStatus.PENDING.value
            timestamp := now
            result := Option.none } cache
        response :=
          [("status", PyVal.s "success"),
           ("command_id", PyVal.s cid),
           ("message", PyVal.s ("Command " ++ command ++ " sent successfully"))]
        upstreamCalls := 1 } := by
    simp only [execute_command, hvalid, hsend]
    rw [if_neg (by simp), if_neg hcid]
  rw [hexec]
  have hlook : dictGet cid (dictInsert cid
      { command := command
        vehicle_id := some vehicle_id
        status := CommandStatus.PENDING.value
        timestamp := now
        result := Option.none : Entry } cache) = some
      { command := command
        vehicle_id := some vehicle_id
        status := CommandStatus.PENDING.value
        timestamp := now
        result := Option.none : Entry } :=
    dictGet_dictInsert_self cid _ cache
  refine ⟨by simp [dictGet], ?_, ?_⟩ <;>
    · simp only [get_command_status, hlook, hpoll]
      simp [cachedView, dictGet]

/-- C4 amended, witness: concrete submission against a client whose poll
has no data yet. -/
theorem pending_after_execute_witness :
    dictGet "command_id"
        (execute_command sampleValid quietClient [] "WAKE_VEHICLE" "v1" "p1"
          "i1" "k1" "s1" Option.none 0).response = some (PyVal.s "cmd-1") ∧
    dictGet "status"
        (get_command_status quietClient
          (execute_command sampleValid quietClient [] "WAKE_VEHICLE" "v1"
            "p1" "i1" "k1" "s1" Option.none 0).cache "cmd-1" 1).response =
      some (PyVal.s "success") ∧
    dictGet "command_status"
        (get_command_status quietClient
          (execute_command sampleValid quietClient [] "WAKE_VEHICLE" "v1"
            "p1" "i1" "k1" "s1" Option.none 0).cache "cmd-1" 1).response =
      some (PyVal.n CommandStatus.PENDING.value) :=
  pending_after_execute sampleValid quietClient [] "WAKE_VEHICLE" "v1" "p1"
    "i1" "k1" "s1" Option.none 0 1 "cmd-1" (by decide) rfl (by decide) rfl

/-! ### C5 -/

/-- C5: when the upstream client fails to produce a command id — it raises
(left conjunct; the returned error carries the upstream message) or
returns a falsy id (right conjunct) — `execute_command` returns an error
and the cache is exactly as before, with no record inserted. -/
theorem upstream_failure_no_record (valid : String → Bool)
    (client : RivianClient) (cache : Cache)
    (command vehicle_id phone_id identity_id vehicle_key private_key : String)
    (params : Option PyVal) (now : Nat)
    (hvalid : valid command = true) :
    (∀ e, client.send_vehicle_command command vehicle_id phone_id identity_id
        vehicle_key private_key params = .error e →
      execute_command valid client cache command vehicle_id phone_id
          identity_id vehicle_key private_key params now =
        { cache := cache
          response := errorResponse ("Error executing command: " ++ e)
          upstreamCalls := 1 }) ∧
    ((client.send_vehicle_command command vehicle_id phone_id identity_id
        vehicle_key private_key params = .ok Option.none ∨
      client.send_vehicle_command command vehicle_id phone_id identity_id
        vehicle_key private_key params = .ok (some "")) →
      execute_command valid client cache command vehicle_id phone_id
          identity_id vehicle_key private_key params now =
        { cache := cache
          response := errorResponse "Failed to send command"
          upstreamCalls := 1 }) := by
  constructor
  · intro e hsend
    simp [execute_command, hvalid, hsend]
  · intro hsend
    rcases hsend with hsend | hsend <;> simp [execute_command, hvalid, hsend]

/-- C5 witness: a concrete raising upstream; the error carries "boom" and
the cache stays empty. -/
theorem upstream_failure_no_record_witness :
    execute_command sampleValid failingClient [] "WAKE_VEHICLE" "v1" "p1"
        "i1" "k1" "s1" Option.none 0 =
      { cache := []
        response := errorResponse "Error executing command: boom"
        upstreamCalls := 1 } :=
  (upstream_failure_no_record sampleValid failingClient [] "WAKE_VEHICLE"
    "v1" "p1" "i1" "k1" "s1" Option.none 0 (by decide)).1 "boom" rfl

/-! ### C6 -/

/-- C6: on a cache miss `get_command_status` queries upstream once; with an
upstream record it synthesizes an entry (command name defaulting to
"unknown", timestamp defaulting to now) and inserts it before returning a
success view; with no upstream record it fails with "Command ID not
found" and the cache is unchanged. -/
theorem cache_miss_synthesizes (client : RivianClient) (cache : Cache)
    (command_id : String) (now : Nat)
    (hmiss : dictGet command_id cache = Option.none) :
    (∀ d, client.get_command_status command_id = .ok (some d) →
      get_command_status client cache command_id now =
        { cache := dictInsert command_id
            { command := d.command.getD "unknown"
              vehicle_id := d.vehicleId
              status := d.state.getD CommandStatus.UNKNOWN.value
              timestamp := d.createdAt.getD now
              result := some d } cache
          response :=
            [("status", PyVal.s "success"),
             ("command_id", PyVal.s command_id),
             ("command_status", PyVal.n (d.state.getD CommandStatus.UNKNOWN.value)),
             ("command", PyVal.s (d.command.getD "unknown")),
             ("timestamp", match d.createdAt with
                           | some t => PyVal.n t
                           | Option.none => PyVal.none),
             ("result", PyVal.data d)]
          upstreamCalls := 1 }) ∧
    (client.get_command_status command_id = .ok Option.none →
      get_command_status client cache command_id now =
        { cache := cache
          response := errorResponse ("Command ID not found: " ++ command_id)
          upstreamCalls := 1 }) := by
  constructor
  · intro d hquery
    simp [get_command_status, hmiss, hquery]
  · intro hquery
    simp [get_command_status, hmiss, hquery]

/-- C6 witness: unknown id against an upstream holding `sampleData`; the
synthesized record is inserted and returned. -/
theorem cache_miss_synthesizes_witness :
    get_command_status completeClient [] "mystery" 9 =
      { cache := [("mystery",
          { command := "WAKE_VEHICLE"
            vehicle_id := some "v1"
            status := 3
            timestamp := 7
            result := some sampleData })]
        response :=
          [("status", PyVal.s "success"),
           ("command_id", PyVal.s "mystery"),
           ("command_status", PyVal.n 3),
           ("command", PyVal.s "WAKE_VEHICLE"),
           ("timestamp", PyVal.n 7),
           ("result", PyVal.data sampleData)]
        upstreamCalls := 1 } :=
  (cache_miss_synthesizes completeClient [] "mystery" 9 rfl).1 sampleData rfl

/-! ### C7 -/

/-- If the cache keys are distinct (as they are for a Python dict), a key
determines its entry. -/
theorem entry_eq_of_key_eq {l : List (String × Entry)}
    (h : (l.map Prod.fst).Nodup) {k : String} {v w : Entry}
    (hv : (k, v) ∈ l) (hw : (k, w) ∈ l) : v = w := by
  induction l with
  | nil => cases hv
  | cons p rest ih =>
      have hhead : p.1 ∉ rest.map Prod.fst := (List.nodup_cons.mp h).1
      have htail : (rest.map Prod.fst).Nodup := (List.nodup_cons.mp h).2
      rcases List.mem_cons.mp hv with hv1 | hv1
      · rcases List.mem_cons.mp hw with hw1 | hw1
        · rw [← hv1] at hw1
          exact (congrArg Prod.snd hw1).symm
        · exfalso
          apply hhead
          rw [← hv1]
          exact List.mem_map.mpr ⟨(k, w), hw1, rfl⟩
      · rcases List.mem_cons.mp hw with hw1 | hw1
        · exfalso
          apply hhead
          rw [← hw1]
          exact List.mem_map.mpr ⟨(k, v), hv1, rfl⟩
        · exact ih htail hv1 hw1

/-- C7 counterexample: a single COMPLETED record is removed and the sweep
logs 1, but the function's return value is `None`, not the count 1 — the
source has no return statement — refuting the "returns count removed"
part of the claim. -/
theorem evict_returns_count_cex :
    (clean_command_cache [("a", completedEntry)] 2 24).cache = [] ∧
    (clean_command_cache [("a", completedEntry)] 2 24).logged = 1 ∧
    (clean_command_cache [("a", completedEntry)] 2 24).returned ≠ some 1 := by
  refine ⟨rfl, rfl, by decide⟩

/-- C7 amended: on a cache with distinct keys, the sweep keeps exactly the
records that are neither terminal (COMPLETED or FAILED) nor older than
`max_age_hours` in seconds, logs the number of removed records, and
returns `None` (the count is only logged, never returned). -/
theorem evict_removes_exactly (cache : Cache) (now max_age_hours : Nat)
    (hkeys : (cache.map Prod.fst).Nodup) :
    (∀ cid e, (cid, e) ∈ (clean_command_cache cache now max_age_hours).cache ↔
        ((cid, e) ∈ cache ∧
         ¬(e.status = CommandStatus.COMPLETED.value ∨
           e.status = CommandStatus.FAILED.value ∨
           now - e.timestamp > max_age_hours * 3600))) ∧
    (clean_command_cache cache now max_age_hours).logged =
      (cache.filter (fun p => staleOrTerminal now max_age_hours p.2)).length ∧
    (clean_command_cache cache now max_age_hours).returned = Option.none := by
  refine ⟨?_, by simp [clean_command_cache], rfl⟩
  intro cid e
  have hcond : staleOrTerminal now max_age_hours e = false ↔
      ¬(e.status = CommandStatus.COMPLETED.value ∨
        e.status = CommandStatus.FAILED.value ∨
        now - e.timestamp > max_age_hours * 3600) := by
    simp [staleOrTerminal]
    tauto
  rw [← hcond]
  simp only [clean_command_cache]
  constructor
  · intro hmem
    rcases List.mem_filter.mp hmem with ⟨hin, hb⟩
    have hnc : cid ∉ (cache.filter
        (fun p => staleOrTerminal now max_age_hours p.2)).map Prod.fst := by
      simpa using hb
    refine ⟨hin, ?_⟩
    by_contra hst
    rw [Bool.not_eq_false] at hst
    exact hnc (List.mem_map.mpr ⟨(cid, e), List.mem_filter.mpr ⟨hin, hst⟩, rfl⟩)
  · rintro ⟨hin, hst⟩
    apply List.mem_filter.mpr
    refine ⟨hin, ?_⟩
    have hnc : cid ∉ (cache.filter
        (fun p => staleOrTerminal now max_age_hours p.2)).map Prod.fst := by
      intro hc
      rcases List.mem_map.mp hc with ⟨p, hpmem, hpfst⟩
      rcases List.mem_filter.mp hpmem with ⟨hpin, hpst⟩
      have hp : (cid, p.2) ∈ cache := by
        rw [← hpfst]
        exact hpin
      have hpe : p.2 = e := entry_eq_of_key_eq hkeys hp hin
      rw [hpe, hst] at hpst
      cases hpst
    simpa using hnc

/-- C7 amended, witness: a two-record cache (one COMPLETED record, one
young PENDING record); the sweep keeps the PENDING record, drops the
terminal one, and returns `None`. -/
theorem evict_removes_exactly_witness :
    (("b", { command := "WAKE_VEHICLE", vehicle_id := some "v1", status := 0,
             timestamp := 2, result := Option.none : Entry }) ∈
        (clean_command_cache
          [("a", completedEntry),
           ("b", { command := "WAKE_VEHICLE", vehicle_id := some "v1",
                   status := 0, timestamp := 2, result := Option.none })]
          2 24).cache ↔
      ((("b", { command := "WAKE_VEHICLE", vehicle_id := some "v1", status := 0,
                timestamp := 2, result := Option.none : Entry }) ∈
          [("a", completedEntry),
           ("b", { command := "WAKE_VEHICLE", vehicle_id := some "v1",
                   status := 0, timestamp := 2, result := Option.none })]) ∧
        ¬((0 : Nat) = CommandStatus.COMPLETED.value ∨
          (0 : Nat) = CommandStatus.FAILED.value ∨
          (2 : Nat) - 2 > 24 * 3600))) ∧
    (clean_command_cache
        [("a", completedEntry),
         ("b", { command := "WAKE_VEHICLE", vehicle_id := some "v1",
                 status := 0, timestamp := 2, result := Option.none })]
        2 24).returned = Option.none :=
  ⟨(evict_removes_exactly
      [("a", completedEntry),
       ("b", { command := "WAKE_VEHICLE", vehicle_id := some "v1",
               status := 0, timestamp := 2, result := Option.none })]
      2 24 (by decide)).1 "b"
      { command := "WAKE_VEHICLE", vehicle_id := some "v1", status := 0,
        timestamp := 2, result := Option.none },
   (evict_removes_exactly
      [("a", completedEntry),
       ("b", { command := "WAKE_VEHICLE", vehicle_id := some "v1",
               status := 0, timestamp := 2, result := Option.none })]
      2 24 (by decide)).2.2⟩

/-! ### C8 -/

/-- A PENDING record for vehicle v1 stamped 1. -/
def entryA : Entry :=
  { command := "WAKE_VEHICLE"
    vehicle_id := some "v1"
    status := 0
    timestamp := 1
    result := Option.none }

/-- An EXECUTING record for vehicle v1 stamped 2. -/
def entryB : Entry :=
  { command := "UNLOCK_ALL_CLOSURES"
    vehicle_id := some "v1"
    status := 1
    timestamp := 2
    result := Option.none }

/-- A PENDING record for vehicle v1 stamped 3. -/
def entryC : Entry :=
  { command := "WAKE_VEHICLE"
    vehicle_id := some "v1"
    status := 0
    timestamp := 3
    result := Option.none }

/-- C8: the history view is a permutation of exactly the matching cached
records, it is sorted by timestamp descending (newest first), and three
matching records inserted in order A, B, C with increasing timestamps come
back in order C, B, A. -/
theorem history_newest_first (cache : Cache) (vehicle_id : String) :
    List.Perm (command_history cache vehicle_id)
      ((cache.filter (fun p => p.2.vehicle_id = some vehicle_id)).map
        historyItemOf) ∧
    List.Sorted (fun a b : HistoryItem => b.timestamp ≤ a.timestamp)
      (command_history cache vehicle_id) ∧
    (∀ (idA idB idC : String) (eA eB eC : Entry),
      eA.vehicle_id = some vehicle_id → eB.vehicle_id = some vehicle_id →
      eC.vehicle_id = some vehicle_id →
      eA.timestamp < eB.timestamp → eB.timestamp < eC.timestamp →
      command_history [(idA, eA), (idB, eB), (idC, eC)] vehicle_id =
        [historyItemOf (idC, eC), historyItemOf (idB, eB),
         historyItemOf (idA, eA)]) := by
  refine ⟨List.perm_insertionSort _ _, ?_, ?_⟩
  · haveI : IsTotal HistoryItem (fun a b => b.timestamp ≤ a.timestamp) :=
      ⟨fun a b => le_total b.timestamp a.timestamp⟩
    haveI : IsTrans HistoryItem (fun a b => b.timestamp ≤ a.timestamp) :=
      ⟨fun _ _ _ hab hbc => le_trans hbc hab⟩
    exact List.sorted_insertionSort _ _
  · intro idA idB idC eA eB eC hA hB hC hAB hBC
    have h1 : ¬(eC.timestamp ≤ eB.timestamp) := not_le.mpr hBC
    have h2 : ¬(eB.timestamp ≤ eA.timestamp) := not_le.mpr hAB
    have h3 : ¬(eC.timestamp ≤ eA.timestamp) := not_le.mpr (hAB.trans hBC)
    simp [command_history, historyItemOf, hA, hB, hC, List.insertionSort,
      List.orderedInsert, h1, h2, h3]

/-- C8 witness: three concrete v1 records stamped 1, 2, 3 come back newest
first. -/
theorem history_newest_first_witness :
    command_history [("a", entryA), ("b", entryB), ("c", entryC)] "v1" =
      [historyItemOf ("c", entryC), historyItemOf ("b", entryB),
       historyItemOf ("a", entryA)] :=
  (history_newest_first [("a", entryA), ("b", entryB), ("c", entryC)]
    "v1").2.2 "a" "b" "c" entryA entryB entryC rfl rfl rfl (by decide)
    (by decide)

/-! ### C9 -/

/-- C9: a command request with any of the four signing parameters absent
(or empty) is rejected with the 400 "Missing required parameters for
command" error, with zero upstream send calls and the cache untouched. -/
theorem missing_credentials_rejected (valid : String → Bool)
    (client : RivianClient) (vehicles : String → Bool) (cache : Cache)
    (vehicle_id : String) (body : CommandRequest) (now : Nat)
    (hcmd : strFalsy body.command = false)
    (hmiss : strFalsy body.phone_id = true ∨ strFalsy body.identity_id = true ∨
             strFalsy body.vehicle_key = true ∨
             strFalsy body.private_key = true) :
    vehicle_command valid client vehicles cache vehicle_id (some body) now =
      { cache := cache
        result := .err "Missing required parameters for command" 400
        sendCalls := 0 } := by
  have hor : (strFalsy body.phone_id || strFalsy body.identity_id ||
      strFalsy body.vehicle_key || strFalsy body.private_key) = true := by
    rcases hmiss with h | h | h | h <;> simp [h]
  simp [vehicle_command, hcmd, hor]

/-- A request body whose phone identity is absent. -/
def noPhoneBody : CommandRequest :=
  { command := some "WAKE_VEHICLE"
    phone_id := Option.none
    identity_id := some "i1"
    vehicle_key := some "k1"
    private_key := some "s1"
    params := Option.none }

/-- C9 witness: a concrete request missing the phone identity. -/
theorem missing_credentials_rejected_witness :
    vehicle_command sampleValid completeClient (fun _ => true) [] "v1"
        (some noPhoneBody) 0 =
      { cache := []
        result := .err "Missing required parameters for command" 400
        sendCalls := 0 } :=
  missing_credentials_rejected sampleValid completeClient (fun _ => true) []
    "v1" noPhoneBody 0 (by decide) (Or.inl (by decide))

/-! ### C10 -/

/-- C10: at the public interface both handler operations are total: for
every input and every upstream behaviour (including raising), the returned
dict has `status` equal to "success", or `status` equal to "error"
together with a string `message`; no other shape is possible. -/
theorem handler_responses_total (valid : String → Bool)
    (client : RivianClient) (cache : Cache)
    (command vehicle_id phone_id identity_id vehicle_key private_key : String)
    (params : Option PyVal) (command_id : String) (now : Nat) :
    (dictGet "status" (execute_command valid client cache command vehicle_id
          phone_id identity_id vehicle_key private_key params now).response =
        some (PyVal.s "success") ∨
      (dictGet "status" (execute_command valid client cache command vehicle_id
          phone_id identity_id vehicle_key private_key params now).response =
        some (PyVal.s "error") ∧
       ∃ m, dictGet "message" (execute_command valid client cache command
          vehicle_id phone_id identity_id vehicle_key private_key params
          now).response = some (PyVal.s m))) ∧
    (dictGet "status" (get_command_status client cache command_id
          now).response = some (PyVal.s "success") ∨
      (dictGet "status" (get_command_status client cache command_id
          now).response = some (PyVal.s "error") ∧
       ∃ m, dictGet "message" (get_command_status client cache command_id
          now).response = some (PyVal.s m))) := by
  constructor
  · by_cases hv : valid command = false
    · simp [execute_command, hv, errorResponse, dictGet]
    · cases hsend : client.send_vehicle_command command vehicle_id phone_id
          identity_id vehicle_key private_key params with
      | error e => simp [execute_command, hv, hsend, errorResponse, dictGet]
      | ok o =>
          cases o with
          | none => simp [execute_command, hv, hsend, errorResponse, dictGet]
          | some cid =>
              by_cases hc : cid = ""
              · simp [execute_command, hv, hsend, hc, errorResponse, dictGet]
              · simp [execute_command, hv, hsend, hc, errorResponse, dictGet]
  · cases hget : dictGet command_id cache with
    | none =>
        cases hq : client.get_command_status command_id with
        | error e => simp [get_command_status, hget, hq, errorResponse, dictGet]
        | ok o =>
            cases o with
            | none => simp [get_command_status, hget, hq, errorResponse, dictGet]
            | some d => simp [get_command_status, hget, hq, dictGet]
    | some cached =>
        by_cases hp : cached.status = CommandStatus.PENDING.value ∨
            cached.status = CommandStatus.EXECUTING.value
        · cases hq : client.get_command_status command_id with
          | error e =>
              simp [get_command_status, hget, hp, hq, errorResponse, dictGet]
          | ok o =>
              cases o with
              | none =>
                  simp [get_command_status, hget, hp, hq, cachedView, dictGet]
              | some d =>
                  simp [get_command_status, hget, hp, hq, cachedView, dictGet]
        · simp [get_command_status, hget, hp, cachedView, dictGet]

end StatsForAdventure
